/-
Verification of the snipr-linux capture/recording core against its
specification.  The Python sources under snipr/services are shallowly
embedded as executable Lean definitions: environment reads, the D-Bus
portal round trips, the framebuffer and the filesystem become explicit
parameters, and callback invocations become event lists.
-/
import Mathlib

namespace Snipr

/-! ## Display server detection (snipr/services/display_server.py) -/

/-- `DisplayServer` enum from snipr/models via display_server.py. -/
inductive DisplayServer where
  | X11
  | WAYLAND
  | UNKNOWN
deriving DecidableEq, Repr

/-- The environment variables read by `get_display_server`.  `none`
models an unset variable; `os.environ.get(k, "")` becomes `getD ""`. -/
structure Env where
  xdg_session_type : Option String
  gdk_backend : Option String
  wayland_display : Option String
  display : Option String
deriving DecidableEq, Repr

/-- Python `str.lower()` as used on the environment values here:
per-character lower-casing. -/
def pyLower (s : String) : String :=
  String.mk (s.data.map Char.toLower)

/-- Python truthiness of `os.environ.get(k)`: the variable is set and
non-empty. -/
def envTruthy (v : Option String) : Bool :=
  v.getD "" ≠ ""

/-- Embedding of `get_display_server` (display_server.py lines 11-35):
check `XDG_SESSION_TYPE` (lower-cased) first, then `GDK_BACKEND`, then
presence of `WAYLAND_DISPLAY`, then presence of `DISPLAY`, else
`UNKNOWN`. -/
def get_display_server (env : Env) : DisplayServer :=
  let session_type := pyLower (env.xdg_session_type.getD "")
  if session_type = "wayland" then DisplayServer.WAYLAND
  else if session_type = "x11" then DisplayServer.X11
  else
    let gdk_backend := pyLower (env.gdk_backend.getD "")
    if gdk_backend = "wayland" then DisplayServer.WAYLAND
    else if gdk_backend = "x11" then DisplayServer.X11
    else if envTruthy env.wayland_display then DisplayServer.WAYLAND
    else if envTruthy env.display then DisplayServer.X11
    else DisplayServer.UNKNOWN

/-- C7: `get_display_server` is total (a Lean function, so it never
fails) and decides by first match: the session-type signal
(`XDG_SESSION_TYPE`) wins first, then the backend override
(`GDK_BACKEND`), then a set non-empty `WAYLAND_DISPLAY`, then a set
non-empty `DISPLAY`, else `UNKNOWN`. -/
theorem get_display_server_priority (env : Env) :
    (pyLower (env.xdg_session_type.getD "") = "wayland" →
        get_display_server env = DisplayServer.WAYLAND) ∧
    (pyLower (env.xdg_session_type.getD "") ≠ "wayland" →
      pyLower (env.xdg_session_type.getD "") = "x11" →
        get_display_server env = DisplayServer.X11) ∧
    (pyLower (env.xdg_session_type.getD "") ≠ "wayland" →
      pyLower (env.xdg_session_type.getD "") ≠ "x11" →
      pyLower (env.gdk_backend.getD "") = "wayland" →
        get_display_server env = DisplayServer.WAYLAND) ∧
    (pyLower (env.xdg_session_type.getD "") ≠ "wayland" →
      pyLower (env.xdg_session_type.getD "") ≠ "x11" →
      pyLower (env.gdk_backend.getD "") ≠ "wayland" →
      pyLower (env.gdk_backend.getD "") = "x11" →
        get_display_server env = DisplayServer.X11) ∧
    (pyLower (env.xdg_session_type.getD "") ≠ "wayland" →
      pyLower (env.xdg_session_type.getD "") ≠ "x11" →
      pyLower (env.gdk_backend.getD "") ≠ "wayland" →
      pyLower (env.gdk_backend.getD "") ≠ "x11" →
      envTruthy env.wayland_display = true →
        get_display_server env = DisplayServer.WAYLAND) ∧
    (pyLower (env.xdg_session_type.getD "") ≠ "wayland" →
      pyLower (env.xdg_session_type.getD "") ≠ "x11" →
      pyLower (env.gdk_backend.getD "") ≠ "wayland" →
      pyLower (env.gdk_backend.getD "") ≠ "x11" →
      envTruthy env.wayland_display = false →
      envTruthy env.display = true →
        get_display_server env = DisplayServer.X11) ∧
    (pyLower (env.xdg_session_type.getD "") ≠ "wayland" →
      pyLower (env.xdg_session_type.getD "") ≠ "x11" →
      pyLower (env.gdk_backend.getD "") ≠ "wayland" →
      pyLower (env.gdk_backend.getD "") ≠ "x11" →
      envTruthy env.wayland_display = false →
      envTruthy env.display = false →
        get_display_server env = DisplayServer.UNKNOWN) := by
  refine ⟨fun h1 => ?_, fun h1 h2 => ?_, fun h1 h2 h3 => ?_,
    fun h1 h2 h3 h4 => ?_, fun h1 h2 h3 h4 h5 => ?_,
    fun h1 h2 h3 h4 h5 h6 => ?_, fun h1 h2 h3 h4 h5 h6 => ?_⟩ <;>
    simp [get_display_server, *]

/-- Witness for C7 at the claim's conflict scenario:
`XDG_SESSION_TYPE=wayland` with `DISPLAY=:0` also set yields Wayland. -/
theorem get_display_server_priority_witness :
    get_display_server ⟨some "wayland", none, none, some ":0"⟩ =
      DisplayServer.WAYLAND :=
  (get_display_server_priority ⟨some "wayland", none, none, some ":0"⟩).1
    (by decide)

/-! ## Screen capture backends (screen_capture_x11.py, screen_capture_portal.py)

The X11 framebuffer (`root.get_image`, ZPixmap, 32-bit padded BGRX) is a
`Screen`; the image a portal screenshot leaves on disk is an `ImageRGB`
parameter.  PNG encode/decode round trips through `_pil_to_pixbuf` and
`save_to_bufferv` are lossless and embedded as the identity. -/

/-- An RGB pixel. -/
structure RGB where
  r : Nat
  g : Nat
  b : Nat
deriving DecidableEq, Repr

/-- An RGBA pixel (alpha produced by polygon masking). -/
structure RGBA where
  r : Nat
  g : Nat
  b : Nat
  a : Nat
deriving DecidableEq, Repr

/-- One framebuffer pixel as `root.get_image` returns it: BGRX byte
order with a padding byte. -/
structure BGRX where
  b : Nat
  g : Nat
  r : Nat
  pad : Nat
deriving DecidableEq, Repr

/-- The X11 root window: geometry plus framebuffer contents. -/
structure Screen where
  width : Nat
  height : Nat
  pix : Nat → Nat → BGRX

/-- `Image.frombytes("RGBX", ..., "raw", "BGRX")` followed by
`.convert("RGB")`: the byte shuffle keeps the colour channels. -/
def bgrxToRGB (p : BGRX) : RGB := ⟨p.r, p.g, p.b⟩

/-- An opaque RGB raster image, row-major. -/
structure ImageRGB where
  width : Nat
  height : Nat
  rows : List (List RGB)
deriving DecidableEq, Repr

/-- An RGBA raster image, row-major. -/
structure ImageRGBA where
  width : Nat
  height : Nat
  rows : List (List RGBA)
deriving DecidableEq, Repr

/-- `X11ScreenCapture.capture_region` (screen_capture_x11.py 28-33):
pull the `w`×`h` rectangle at `(x, y)` straight from the framebuffer and
convert BGRX to RGB. -/
def x11_capture_region (scr : Screen) (x y w h : Nat) : ImageRGB :=
  { width := w
    height := h
    rows := (List.range h).map fun j =>
      (List.range w).map fun i => bgrxToRGB (scr.pix (x + i) (y + j)) }

/-- `X11ScreenCapture.capture_fullscreen` (lines 23-26): read the root
geometry and defer to `capture_region(0, 0, width, height)`. -/
def x11_capture_fullscreen (scr : Screen) : ImageRGB :=
  x11_capture_region scr 0 0 scr.width scr.height

/-- Cropping an image to the rectangle at `(x, y)` of size `w`×`h`
(`GdkPixbuf.new_subpixbuf` / `PIL.Image.crop`). -/
def ImageRGB.crop (img : ImageRGB) (x y w h : Nat) : ImageRGB :=
  { width := w
    height := h
    rows := (List.range h).map fun j =>
      (List.range w).map fun i => (img.rows.getD (y + j) []).getD (x + i) ⟨0, 0, 0⟩ }

/-- `PortalScreenCapture.capture_fullscreen` (screen_capture_portal.py
32-35): take a portal screenshot and load the file it names.  `shot` is
that file's decoded content. -/
def portal_capture_fullscreen (shot : ImageRGB) : ImageRGB := shot

/-- `PortalScreenCapture.capture_region` (lines 37-41): take a portal
screenshot, load it, and `new_subpixbuf(x, y, width, height)`.  The
screen is static across the two portal calls, so the same `shot` stands
for both screenshots. -/
def portal_capture_region (shot : ImageRGB) (x y w h : Nat) : ImageRGB :=
  shot.crop x y w h

/-- `X11ScreenCapture.get_screen_size` (lines 69-72): return the root
geometry's width and height.  There is no exception handler, so a
failing `get_geometry` call (modelled as `Except.error`) propagates. -/
def x11_get_screen_size (geom : Except String (Nat × Nat)) :
    Except String (Nat × Nat) := do
  let g ← geom
  pure (g.1, g.2)

/-- `PortalScreenCapture.get_screen_size` (lines 88-95): try a portal
screenshot and read its dimensions; on any exception return
`(1920, 1080)`. -/
def portal_get_screen_size (shot : Except String ImageRGB) : Nat × Nat :=
  match shot with
  | .ok img => (img.width, img.height)
  | .error _ => (1920, 1080)

/-- Reading an index below `n` out of `(List.range n).map f` yields
`f i`. -/
theorem getD_map_range {α : Type} (f : Nat → α) (d : α) {n i : Nat}
    (h : i < n) : ((List.range n).map f).getD i d = f i := by
  rw [List.getD_eq_getElem?_getD, List.getElem?_map, List.getElem?_range h]
  rfl

/-- C1: for every rectangle inside the screen bounds, `capture_region`
is pixel-equal to cropping `capture_fullscreen` to that rectangle, on
the X11 backend (exact framebuffer reads) and on the portal backend
(exact in this embedding, where the portal's PNG round trip is
lossless). -/
theorem capture_region_eq_crop_fullscreen (scr : Screen) (shot : ImageRGB)
    (x y w h : Nat) (hx : x + w ≤ scr.width) (hy : y + h ≤ scr.height) :
    x11_capture_region scr x y w h =
      (x11_capture_fullscreen scr).crop x y w h ∧
    portal_capture_region shot x y w h =
      (portal_capture_fullscreen shot).crop x y w h := by
  refine ⟨?_, rfl⟩
  unfold x11_capture_fullscreen x11_capture_region ImageRGB.crop
  simp only [ImageRGB.mk.injEq, true_and]
  refine List.map_congr_left fun j hj => ?_
  refine List.map_congr_left fun i hi => ?_
  rw [List.mem_range] at hj hi
  rw [getD_map_range _ _ (by omega), getD_map_range _ _ (by omega)]
  simp [Nat.zero_add]

/-- A concrete 4×3 framebuffer used by the witnesses. -/
def testScreen : Screen :=
  { width := 4
    height := 3
    pix := fun i j => ⟨i, j, i + j, 0⟩ }

/-- A concrete 4×3 portal screenshot used by the witnesses. -/
def testShot : ImageRGB :=
  { width := 4
    height := 3
    rows := (List.range 3).map fun j =>
      (List.range 4).map fun i => ⟨i + 1, j + 2, i * j, 0⟩ |> bgrxToRGB }

/-- Witness for C1 at the rectangle (1, 1, 2, 2) of a 4×3 screen. -/
theorem capture_region_eq_crop_fullscreen_witness :
    1 + 2 ≤ testScreen.width ∧ 1 + 2 ≤ testScreen.height ∧
    (x11_capture_region testScreen 1 1 2 2 =
        (x11_capture_fullscreen testScreen).crop 1 1 2 2 ∧
      portal_capture_region testShot 1 1 2 2 =
        (portal_capture_fullscreen testShot).crop 1 1 2 2) :=
  ⟨by decide, by decide,
    capture_region_eq_crop_fullscreen testScreen testShot 1 1 2 2
      (by decide) (by decide)⟩

/-! ## Freeform captures

`capture_freeform` builds a greyscale mask `Image.new("L", (w, h), 0)`
(all zero), draws the translated polygon with fill 255 only when it has
at least 3 points, and installs the mask as the alpha channel with
`putalpha`.  `ImageDraw.polygon` is PIL library code outside this
repository, so the rasterizer is a parameter `polyFill` of the
embedding; the claims below only exercise the branch where it is never
called. -/

/-- The freshly created mask: `Image.new("L", (width, height), 0)`. -/
def zeroMask (w h : Nat) : List (List Nat) :=
  List.replicate h (List.replicate w 0)

/-- The mask after the conditional `draw.polygon(local_points,
fill=255)`: drawn only when the translated polygon has ≥ 3 points. -/
def freeformMask (polyFill : Nat → Nat → List (Int × Int) → List (List Nat))
    (w h : Nat) (localPts : List (Int × Int)) : List (List Nat) :=
  if localPts.length ≥ 3 then polyFill w h localPts else zeroMask w h

/-- `X11ScreenCapture.capture_freeform` (screen_capture_x11.py 43-60):
read the box from the framebuffer, convert to RGBA, translate the
points to box-local coordinates, and `putalpha` the polygon mask. -/
def x11_capture_freeform
    (polyFill : Nat → Nat → List (Int × Int) → List (List Nat))
    (scr : Screen) (x y w h : Nat) (points : List (Int × Int)) : ImageRGBA :=
  let localPts := points.map fun p => (p.1 - (x : Int), p.2 - (y : Int))
  let mask := freeformMask polyFill w h localPts
  { width := w
    height := h
    rows := (List.range h).map fun j =>
      (List.range w).map fun i =>
        let c := bgrxToRGB (scr.pix (x + i) (y + j))
        ⟨c.r, c.g, c.b, (mask.getD j []).getD i 0⟩ }

/-- `PortalScreenCapture.capture_freeform` (screen_capture_portal.py
48-80): take a portal screenshot, crop it to the box, then apply the
same polygon mask via `putalpha`. -/
def portal_capture_freeform
    (polyFill : Nat → Nat → List (Int × Int) → List (List Nat))
    (shot : ImageRGB) (x y w h : Nat) (points : List (Int × Int)) : ImageRGBA :=
  let cropped := shot.crop x y w h
  let localPts := points.map fun p => (p.1 - (x : Int), p.2 - (y : Int))
  let mask := freeformMask polyFill w h localPts
  { width := w
    height := h
    rows := (List.range h).map fun j =>
      (List.range w).map fun i =>
        let c := (cropped.rows.getD j []).getD i ⟨0, 0, 0⟩
        ⟨c.r, c.g, c.b, (mask.getD j []).getD i 0⟩ }

/-- Every pixel of the image has alpha 255. -/
def ImageRGBA.fullyOpaque (img : ImageRGBA) : Bool :=
  img.rows.all fun row => row.all fun p => p.a = 255

/-- Every pixel of the image has alpha 0. -/
def ImageRGBA.fullyTransparent (img : ImageRGBA) : Bool :=
  img.rows.all fun row => row.all fun p => p.a = 0

/-- Drop the alpha channel. -/
def ImageRGBA.rgbPart (img : ImageRGBA) : ImageRGB :=
  { width := img.width
    height := img.height
    rows := img.rows.map fun row => row.map fun p => ⟨p.r, p.g, p.b⟩ }

/-- The untouched mask reads 0 at every coordinate. -/
theorem zeroMask_getD (w h j i : Nat) :
    ((zeroMask w h).getD j []).getD i 0 = 0 := by
  unfold zeroMask
  rcases Nat.lt_or_ge j h with hj | hj
  · have hrow : (List.replicate h (List.replicate w 0)).getD j [] =
        List.replicate w 0 := by
      rw [List.getD_eq_getElem?_getD, List.getElem?_replicate, if_pos hj]
      rfl
    rw [hrow]
    rcases Nat.lt_or_ge i w with hi | hi
    · rw [List.getD_eq_getElem?_getD, List.getElem?_replicate, if_pos hi]
      rfl
    · exact List.getD_eq_default _ _ (by simpa using hi)
  · have hrow : (List.replicate h (List.replicate w 0)).getD j [] = [] :=
      List.getD_eq_default _ _ (by simpa using hj)
    rw [hrow]
    rfl

/-- C2 counterexample: with a 2-point polygon the mask stays all zero,
so `capture_freeform` returns a fully *transparent* box, not a fully
opaque one — the claim fails at this concrete input. -/
theorem capture_freeform_degenerate_not_opaque :
    (x11_capture_freeform (fun _ _ _ => []) testScreen 0 0 2 2
        [(0, 0), (1, 1)]).fullyOpaque = false := by
  decide

/-- C2 amended: for every polygon with fewer than 3 points,
`capture_freeform` returns a fully transparent box (alpha 0 everywhere)
whose colour channels equal `capture_region` of the same box, on both
backends. -/
theorem capture_freeform_degenerate (polyFill : Nat → Nat → List (Int × Int) → List (List Nat))
    (scr : Screen) (shot : ImageRGB) (x y w h : Nat)
    (points : List (Int × Int)) (hpts : points.length < 3) :
    (x11_capture_freeform polyFill scr x y w h points).fullyTransparent = true ∧
    (x11_capture_freeform polyFill scr x y w h points).rgbPart =
      x11_capture_region scr x y w h ∧
    (portal_capture_freeform polyFill shot x y w h points).fullyTransparent = true ∧
    (portal_capture_freeform polyFill shot x y w h points).rgbPart =
      portal_capture_region shot x y w h := by
  have hmask : ∀ localPts : List (Int × Int), localPts.length = points.length →
      freeformMask polyFill w h localPts = zeroMask w h := by
    intro localPts hlen
    unfold freeformMask
    rw [if_neg (by omega)]
  simp only [x11_capture_freeform, portal_capture_freeform]
  rw [hmask _ (by simp)]
  refine ⟨?_, ?_, ?_, ?_⟩
  · simp only [ImageRGBA.fullyTransparent, List.all_eq_true]
    intro row hrow p hp
    simp only [List.mem_map, List.mem_range] at hrow
    obtain ⟨j, -, rfl⟩ := hrow
    simp only [List.mem_map, List.mem_range] at hp
    obtain ⟨i, -, rfl⟩ := hp
    simpa using zeroMask_getD w h j i
  · simp only [ImageRGBA.rgbPart, x11_capture_region, List.map_map,
      ImageRGB.mk.injEq, true_and]
    refine List.map_congr_left fun j _ => ?_
    simp only [Function.comp, List.map_map]
    exact List.map_congr_left fun i _ => rfl
  · simp only [ImageRGBA.fullyTransparent, List.all_eq_true]
    intro row hrow p hp
    simp only [List.mem_map, List.mem_range] at hrow
    obtain ⟨j, -, rfl⟩ := hrow
    simp only [List.mem_map, List.mem_range] at hp
    obtain ⟨i, -, rfl⟩ := hp
    simpa using zeroMask_getD w h j i
  · simp only [ImageRGBA.rgbPart, portal_capture_region, ImageRGB.crop,
      List.map_map, ImageRGB.mk.injEq, true_and]
    refine List.map_congr_left fun j hj => ?_
    rw [List.mem_range] at hj
    simp only [Function.comp_apply, List.map_map]
    refine List.map_congr_left fun i hi => ?_
    rw [List.mem_range] at hi
    simp only [Function.comp_apply]
    rw [getD_map_range _ _ hj, getD_map_range _ _ hi]

/-- Witness for C2 (amended) at a 2-point polygon on concrete data. -/
theorem capture_freeform_degenerate_witness :
    ([((0 : Int), (0 : Int)), (1, 1)].length < 3) ∧
    ((x11_capture_freeform (fun _ _ _ => []) testScreen 1 0 2 2
        [(0, 0), (1, 1)]).fullyTransparent = true ∧
      (x11_capture_freeform (fun _ _ _ => []) testScreen 1 0 2 2
          [(0, 0), (1, 1)]).rgbPart =
        x11_capture_region testScreen 1 0 2 2 ∧
      (portal_capture_freeform (fun _ _ _ => []) testShot 1 0 2 2
          [(0, 0), (1, 1)]).fullyTransparent = true ∧
      (portal_capture_freeform (fun _ _ _ => []) testShot 1 0 2 2
          [(0, 0), (1, 1)]).rgbPart =
        portal_capture_region testShot 1 0 2 2) :=
  ⟨by decide,
    capture_freeform_degenerate (fun _ _ _ => []) testScreen testShot 1 0 2 2
      [(0, 0), (1, 1)] (by decide)⟩

/-- C9 counterexample: `X11ScreenCapture.get_screen_size` has no
exception handler, so a failing `get_geometry` platform query propagates
as an error instead of yielding a default size — refuting the claim for
the X11 backend at this concrete failure. -/
theorem x11_get_screen_size_propagates :
    x11_get_screen_size (Except.error "X connection broken") =
      Except.error "X connection broken" := rfl

/-- C9 amended: only the portal backend's `get_screen_size` fails soft —
it returns the fixed default `(1920, 1080)` whenever the screenshot
query fails, and the screenshot's dimensions otherwise; the X11
backend's `get_screen_size` propagates a platform-query failure. -/
theorem get_screen_size_fails_soft :
    (∀ e : String, portal_get_screen_size (Except.error e) = (1920, 1080)) ∧
    (∀ img : ImageRGB,
      portal_get_screen_size (Except.ok img) = (img.width, img.height)) ∧
    (∀ e : String,
      x11_get_screen_size (Except.error e) = Except.error e) ∧
    (∀ g : Nat × Nat, x11_get_screen_size (Except.ok g) = Except.ok g) :=
  ⟨fun _ => rfl, fun _ => rfl, fun _ => rfl, fun _ => rfl⟩

/-! ## Portal signal subscription discipline (screen_capture_portal.py)

`_screenshot` and `start_screencast` subscribe to the `Response` signal,
issue the D-Bus method call, run a bounded loop, and unsubscribe.  The
embedding records the subscribe/unsubscribe actions in order and keeps
the D-Bus outcome abstract.  A `call_sync` that raises (`callError`)
propagates the exception before the `signal_unsubscribe` line runs. -/

/-- A signal-subscription action on the session bus. -/
inductive SigEvent where
  | subscribe
  | unsubscribe
deriving DecidableEq, Repr

/-- Outcome of one portal request round trip: the `Response` signal
arrives (with a response code and, when present, the `uri` result key),
the 30 s loop timeout fires first, or the synchronous D-Bus method call
itself raises. -/
inductive PortalReply where
  | response (code : Nat) (uri : Option String)
  | timeout
  | callError (msg : String)
deriving DecidableEq, Repr

/-- `PortalScreenCapture._screenshot` (lines 97-142): subscribe, call
`Screenshot`, run the loop until response or timeout, unsubscribe, then
raise or return.  Returns the bus-event trace and the call result. -/
def screenshotRun (reply : PortalReply) :
    List SigEvent × Except String String :=
  match reply with
  | .callError msg => ([.subscribe], .error msg)
  | .response code uri =>
      let res : Except String String :=
        if code = 0 then
          match uri with
          | some u => .ok u
          | none => .error ("Portal screenshot failed with response " ++ toString code)
        else .error ("Portal screenshot failed with response " ++ toString code)
      ([.subscribe, .unsubscribe], res)
  | .timeout => ([.subscribe, .unsubscribe], .error "No URI returned from screenshot portal")

/-- Outcome of the `Start` phase of `start_screencast`: mirror of
`PortalReply` with the `streams` result (list of node ids). -/
inductive StartReply where
  | response (code : Nat) (streams : List Nat)
  | timeout
  | callError (msg : String)
deriving DecidableEq, Repr

/-- `PortalScreenCapture.start_screencast` (lines 144-216):
`CreateSession` and `SelectSources` run before any subscription (a
failure there, `preOk = false`, raises with no handler registered); then
subscribe, call `Start`, run the loop, unsubscribe, and raise or return
the first stream's node id. -/
def screencastRun (preOk : Bool) (preErr : String) (reply : StartReply) :
    List SigEvent × Except String String :=
  if ¬preOk then ([], .error preErr)
  else
    match reply with
    | .callError msg => ([.subscribe], .error msg)
    | .response code streams =>
        let node : Option String :=
          if code = 0 then
            match streams with
            | s :: _ => some (toString s)
            | [] => none
          else none
        let res : Except String String :=
          match node with
          | some n => .ok n
          | none => .error "Failed to get PipeWire node from screencast portal"
        ([.subscribe, .unsubscribe], res)
    | .timeout => ([.subscribe, .unsubscribe],
        .error "Failed to get PipeWire node from screencast portal")

/-- The trace leaves no live subscription: every subscribe is paired
with an unsubscribe. -/
def handlerBalanced (evs : List SigEvent) : Bool :=
  evs.count SigEvent.subscribe = evs.count SigEvent.unsubscribe

/-- C8 counterexample: when the synchronous `Screenshot` D-Bus call
itself raises, the exception propagates before `signal_unsubscribe`
runs, so the handler subscription survives that exit path of
`_screenshot`. -/
theorem screenshot_call_error_leaks_handler :
    handlerBalanced (screenshotRun (.callError "GDBus.Error: timeout")).1
      = false := by decide

/-- C8 amended: on the success, error-response and loop-timeout exit
paths of `_screenshot` and of the `Start` phase of `start_screencast`,
the `Response` handler subscribed before the request is unsubscribed
exactly once, so no subscription survives those paths; only an
exception from the D-Bus method call itself escapes before the
unsubscribe. -/
theorem portal_unsubscribes_on_enumerated_paths :
    (∀ (code : Nat) (uri : Option String),
      (screenshotRun (.response code uri)).1 =
        [SigEvent.subscribe, SigEvent.unsubscribe]) ∧
    (screenshotRun .timeout).1 = [SigEvent.subscribe, SigEvent.unsubscribe] ∧
    (∀ (preErr : String) (code : Nat) (streams : List Nat),
      (screencastRun true preErr (.response code streams)).1 =
        [SigEvent.subscribe, SigEvent.unsubscribe]) ∧
    (∀ preErr : String, (screencastRun true preErr .timeout).1 =
        [SigEvent.subscribe, SigEvent.unsubscribe]) :=
  ⟨fun _ _ => rfl, rfl, fun _ _ _ => rfl, fun _ => rfl⟩

/-! ## Video recording supervisor (snipr/services/video_recording.py)

`VideoRecordingService` is embedded as a record of its mutable fields;
callback invocations become an ordered `RecEvent` list; the filesystem
is an association list from path to file size; `subprocess.Popen` and
`proc.communicate` outcomes are explicit parameters. -/

/-- `RecordingState` enum (snipr/models/recording_state.py). -/
inductive RecordingState where
  | IDLE
  | PREPARING
  | RECORDING
  | STOPPING
  | COMPLETED
  | FAILED
deriving DecidableEq, Repr

/-- One callback invocation issued by the service. -/
inductive RecEvent where
  | stateChanged (s : RecordingState)
  | durationChanged
  | completed (path : String)
  | failed (msg : String)
deriving DecidableEq, Repr

/-- The mutable fields of `VideoRecordingService` (lines 19-26). -/
structure VRService where
  display_server : DisplayServer
  process : Option Nat
  state : RecordingState
  timer_id : Option Nat
  current_path : Option String
  pipewire_node_id : Option String
deriving DecidableEq, Repr

/-- The filesystem as the recording paths that exist with their sizes
(`os.path.exists` / `os.path.getsize`). -/
def FS := List (String × Nat)

/-- `os.path.exists`. -/
def fsExists (fs : FS) (p : String) : Bool :=
  (List.lookup p fs).isSome

/-- `os.path.getsize` on an existing file. -/
def fsSize (fs : FS) (p : String) : Nat :=
  (List.lookup p fs).getD 0

/-- `os.remove`. -/
def fsRemove (fs : FS) (p : String) : FS :=
  List.filter (fun e => ¬e.1 = p) fs

/-- `VideoRecordingService._set_state` (lines 46-50): assign and fire
`on_state_changed` only when the state actually changes. -/
def setState (m : VRService) (s : RecordingState) :
    VRService × List RecEvent :=
  if m.state ≠ s then ({ m with state := s }, [.stateChanged s])
  else (m, [])

/-- Python truthiness of an optional string (`if self._pipewire_node_id`,
`if file_path`): present and non-empty. -/
def strTruthy (v : Option String) : Bool :=
  v.getD "" ≠ ""

/-- The ffmpeg input-source test (line 100): Wayland with a set
PipeWire node id selects the pipewire input. -/
def usesPipewire (ds : DisplayServer) (node : Option String) : Bool :=
  ds = DisplayServer.WAYLAND ∧ strTruthy node

/-- Strip the screen-number suffix from a display name (lines 105-108):
`":0.0"` becomes `":0"`; a name with no dot is unchanged. -/
def stripScreenNumber (display : String) : String :=
  if display.contains '.' then display.takeWhile (fun c => c ≠ '.')
  else display

/-- The `WxH` video-size argument. -/
def sizeString (w h : Nat) : String :=
  toString w ++ "x" ++ toString h

/-- `VideoRecordingService._build_ffmpeg_command` (lines 97-129).
`displayVar` is `os.environ.get("DISPLAY", ":0")`'s underlying
variable. -/
def buildFfmpegCommand (ds : DisplayServer) (node : Option String)
    (displayVar : Option String)
    (region : Option (Int × Int × Nat × Nat)) (outPath : String) :
    List String :=
  let input : List String :=
    if usesPipewire ds node then
      ["-f", "pipewire", "-i", node.getD ""]
    else
      let display := stripScreenNumber (displayVar.getD ":0")
      ["-f", "x11grab", "-framerate", "30", "-draw_mouse", "0"] ++
        match region with
        | some (x, y, w, h) =>
            ["-video_size", sizeString w h, "-i",
              display ++ "+" ++ toString (max 0 x) ++ "," ++ toString (max 0 y)]
        | none => ["-i", display]
  ["ffmpeg", "-y"] ++ input ++
    ["-c:v", "libx264", "-preset", "ultrafast", "-crf", "23",
      "-pix_fmt", "yuv420p", "-r", "30", outPath]

/-- Outcome of `subprocess.Popen`: a process handle, or the exception
that `_start_recording` catches. -/
inductive LaunchResult where
  | ok (pid : Nat)
  | fail (msg : String)
deriving DecidableEq, Repr

/-- Result of a `start_*` call: the new service record, the callbacks
fired, and the encoder command when one was built and launched. -/
structure StartResult where
  svc : VRService
  events : List RecEvent
  cmd : Option (List String)
deriving DecidableEq, Repr

/-- `VideoRecordingService._start_recording` (lines 67-95): a no-op in
`RECORDING`/`PREPARING`/`STOPPING`; otherwise transition to
`PREPARING`, allocate `newPath`, build the ffmpeg command, launch the
process, and on success transition to `RECORDING` and start the
duration timer; a launch failure transitions to `FAILED` and fires
`on_recording_failed`. -/
def startRecording (m : VRService) (displayVar : Option String)
    (region : Option (Int × Int × Nat × Nat)) (newPath : String)
    (launch : LaunchResult) : StartResult :=
  if m.state = RecordingState.RECORDING ∨ m.state = RecordingState.PREPARING ∨
      m.state = RecordingState.STOPPING then
    { svc := m, events := [], cmd := none }
  else
    let (m1, e1) := setState m RecordingState.PREPARING
    let m2 := { m1 with current_path := some newPath }
    let cmd := buildFfmpegCommand m2.display_server m2.pipewire_node_id
      displayVar region newPath
    match launch with
    | .ok pid =>
        let m3 := { m2 with process := some pid }
        let (m4, e2) := setState m3 RecordingState.RECORDING
        { svc := { m4 with timer_id := some 0 }, events := e1 ++ e2,
          cmd := some cmd }
    | .fail msg =>
        let (m3, e2) := setState m2 RecordingState.FAILED
        { svc := m3,
          events := e1 ++ e2 ++ [.failed ("Failed to start recording: " ++ msg)],
          cmd := some cmd }

/-- `VideoRecordingService.start_recording_region` (lines 52-57): force
even dimensions for H.264 (`width + width % 2`, `height + height % 2`)
then start. -/
def start_recording_region (m : VRService) (displayVar : Option String)
    (x y : Int) (width height : Nat) (newPath : String)
    (launch : LaunchResult) : StartResult :=
  startRecording m displayVar
    (some (x, y, width + width % 2, height + height % 2)) newPath launch

/-- Outcome of `proc.communicate(input=b"q", timeout=10)` in the stop
worker: exit with a return code and drained stderr, the 10 s timeout, or
another communication exception. -/
inductive StopOutcome where
  | exited (returncode : Int) (stderrData : String)
  | timeoutExpired
  | commError (msg : String)
deriving DecidableEq, Repr

/-- Python `stderr_data[-500:]`. -/
def lastChars (s : String) (n : Nat) : String :=
  String.mk (s.data.drop (s.data.length - n))

/-- `VideoRecordingService.stop_recording` (lines 131-196) including the
stop worker and its `GLib.idle_add` continuations: a no-op unless a
process exists and the state is `RECORDING`; otherwise transition to
`STOPPING`, stop the timer, drop the process handle, and settle from the
`communicate` outcome: exit code 0 with an existing non-empty output
file yields `COMPLETED` plus `on_recording_completed(path)`, anything
else yields `FAILED` plus `on_recording_failed`. -/
def stopRecording (m : VRService) (fs : FS) (outcome : StopOutcome) :
    VRService × List RecEvent :=
  if m.process = none ∨ m.state ≠ RecordingState.RECORDING then (m, [])
  else
    let (m1, e1) := setState m RecordingState.STOPPING
    let m2 := { m1 with timer_id := none, process := none }
    match outcome with
    | .exited returncode stderrData =>
        let filePath := m2.current_path
        let fileSize : Int :=
          if strTruthy filePath ∧ fsExists fs (filePath.getD "") then
            fsSize fs (filePath.getD "")
          else -1
        if returncode = 0 ∧ strTruthy filePath ∧ fileSize > 0 then
          let (m3, e2) := setState m2 RecordingState.COMPLETED
          (m3, e1 ++ e2 ++ [.completed (filePath.getD "")])
        else
          let (m3, e2) := setState m2 RecordingState.FAILED
          (m3, e1 ++ e2 ++
            [.failed ("FFmpeg exited with code " ++ toString returncode ++
              ": " ++ lastChars stderrData 500)])
    | .timeoutExpired =>
        let (m3, e2) := setState m2 RecordingState.FAILED
        (m3, e1 ++ e2 ++ [.failed "Recording stop timed out"])
    | .commError msg =>
        let (m3, e2) := setState m2 RecordingState.FAILED
        (m3, e1 ++ e2 ++ [.failed msg])

/-- `VideoRecordingService.cancel_recording` (lines 208-228): stop the
timer, kill and forget any live process, delete the output file if
present, and transition to `IDLE`; no completion or failure callback is
fired. -/
def cancelRecording (m : VRService) (fs : FS) :
    VRService × FS × List RecEvent :=
  let m1 := { m with timer_id := none, process := none }
  let fs2 :=
    match m1.current_path with
    | some p => if fsExists fs p then fsRemove fs p else fs
    | none => fs
  let (m2, e) := setState m1 RecordingState.IDLE
  (m2, fs2, e)

/-- Removing a path removes its directory entry. -/
theorem lookup_fsRemove (fs : FS) (p : String) :
    List.lookup p (fsRemove fs p) = none := by
  induction fs with
  | nil => rfl
  | cons e rest ih =>
      unfold fsRemove at ih ⊢
      rw [List.filter_cons]
      by_cases he : e.1 = p
      · simpa [he] using ih
      · have hbe : (p == e.1) = false := by
          simpa using fun h => he h.symm
        rw [if_pos (by simpa using he)]
        simpa [List.lookup, hbe] using ih

/-- C3: from any prior state — `PREPARING`, `RECORDING` or `STOPPING` —
`cancel_recording` leaves the state `IDLE`, leaves no file at the job's
output path, and fires neither `on_recording_completed` nor
`on_recording_failed`. -/
theorem cancelRecording_silent_idle (m : VRService) (fs : FS) (p : String)
    (hprior : m.state = RecordingState.PREPARING ∨
      m.state = RecordingState.RECORDING ∨
      m.state = RecordingState.STOPPING)
    (hpath : m.current_path = some p) :
    (cancelRecording m fs).1.state = RecordingState.IDLE ∧
    fsExists (cancelRecording m fs).2.1 p = false ∧
    ∀ e ∈ (cancelRecording m fs).2.2,
      (∀ q, e ≠ RecEvent.completed q) ∧ ∀ s, e ≠ RecEvent.failed s := by
  have hrem : List.lookup p (fsRemove fs p) = none := lookup_fsRemove fs p
  simp only [cancelRecording, setState, hpath]
  refine ⟨?_, ?_, ?_⟩
  · split <;> simp_all
  · by_cases hex : fsExists fs p = true <;>
      split <;> simp [hex, fsExists, hrem] <;> simp_all [fsExists] <;>
      exact fun a b hmem hpa => hex b (by rwa [hpa])
  · split <;> simp

/-- A concrete mid-recording service used by the witnesses. -/
def m_rec : VRService :=
  { display_server := DisplayServer.X11
    process := some 7
    state := RecordingState.RECORDING
    timer_id := some 1
    current_path := some "/tmp/snipr/Recording_20260101_120000.mp4"
    pipewire_node_id := none }

/-- Witness for C3: cancelling `m_rec` empties the recording path and
reports nothing. -/
theorem cancelRecording_silent_idle_witness :
    (m_rec.state = RecordingState.PREPARING ∨
      m_rec.state = RecordingState.RECORDING ∨
      m_rec.state = RecordingState.STOPPING) ∧
    m_rec.current_path = some "/tmp/snipr/Recording_20260101_120000.mp4" ∧
    ((cancelRecording m_rec
        [("/tmp/snipr/Recording_20260101_120000.mp4", 4096)]).1.state =
        RecordingState.IDLE ∧
      fsExists (cancelRecording m_rec
          [("/tmp/snipr/Recording_20260101_120000.mp4", 4096)]).2.1
        "/tmp/snipr/Recording_20260101_120000.mp4" = false ∧
      ∀ e ∈ (cancelRecording m_rec
          [("/tmp/snipr/Recording_20260101_120000.mp4", 4096)]).2.2,
        (∀ q, e ≠ RecEvent.completed q) ∧ ∀ s, e ≠ RecEvent.failed s) :=
  ⟨by decide, by decide,
    cancelRecording_silent_idle m_rec
      [("/tmp/snipr/Recording_20260101_120000.mp4", 4096)]
      "/tmp/snipr/Recording_20260101_120000.mp4" (by decide) (by decide)⟩

/-- A concrete service in the `COMPLETED` state. -/
def m_completed : VRService :=
  { display_server := DisplayServer.X11
    process := none
    state := RecordingState.COMPLETED
    timer_id := none
    current_path := some "/tmp/snipr/old.mp4"
    pipewire_node_id := none }

/-- C4 counterexample: the guard in `_start_recording` only rejects
`RECORDING`/`PREPARING`/`STOPPING`, so a start in state `COMPLETED` is
accepted — the state and the process handle change and a command is
launched, refuting the claimed no-op. -/
theorem startRecording_not_noop_in_completed :
    ((startRecording m_completed (some ":0") none "/tmp/snipr/new.mp4"
        (LaunchResult.ok 5)).svc.state ≠ m_completed.state) ∧
    ((startRecording m_completed (some ":0") none "/tmp/snipr/new.mp4"
        (LaunchResult.ok 5)).svc.process ≠ m_completed.process) ∧
    ((startRecording m_completed (some ":0") none "/tmp/snipr/new.mp4"
        (LaunchResult.ok 5)).cmd ≠ none) := by decide

/-- C4 amended: a `start_*` call is accepted (builds and launches an
encoder command) if and only if the state is none of `RECORDING`,
`PREPARING`, `STOPPING` — that is, from `IDLE`, `COMPLETED` or `FAILED`;
in the three busy states it is a no-op leaving the record unchanged and
firing nothing, and an accepted start with a successful launch ends in
`RECORDING` with the new process handle. -/
theorem startRecording_accepted_iff_not_busy (m : VRService)
    (displayVar : Option String) (region : Option (Int × Int × Nat × Nat))
    (newPath : String) (launch : LaunchResult) :
    ((startRecording m displayVar region newPath launch).cmd.isSome = true ↔
      ¬(m.state = RecordingState.RECORDING ∨
        m.state = RecordingState.PREPARING ∨
        m.state = RecordingState.STOPPING)) ∧
    ((m.state = RecordingState.RECORDING ∨
        m.state = RecordingState.PREPARING ∨
        m.state = RecordingState.STOPPING) →
      startRecording m displayVar region newPath launch =
        { svc := m, events := [], cmd := none }) ∧
    (¬(m.state = RecordingState.RECORDING ∨
        m.state = RecordingState.PREPARING ∨
        m.state = RecordingState.STOPPING) →
      ∀ pid, launch = LaunchResult.ok pid →
        (startRecording m displayVar region newPath launch).svc.state =
          RecordingState.RECORDING ∧
        (startRecording m displayVar region newPath launch).svc.process =
          some pid) := by
  by_cases hbusy : m.state = RecordingState.RECORDING ∨
      m.state = RecordingState.PREPARING ∨ m.state = RecordingState.STOPPING
  · refine ⟨?_, fun _ => ?_, fun h => absurd hbusy h⟩ <;>
      simp [startRecording, hbusy]
  · have hnr : m.state ≠ RecordingState.RECORDING := fun h => hbusy (Or.inl h)
    have hnp : m.state ≠ RecordingState.PREPARING :=
      fun h => hbusy (Or.inr (Or.inl h))
    have hns : m.state ≠ RecordingState.STOPPING :=
      fun h => hbusy (Or.inr (Or.inr h))
    refine ⟨?_, fun h => absurd h hbusy, fun _ pid hpid => ?_⟩
    · cases launch <;> simp [startRecording, setState, hnr, hnp, hns]
    · subst hpid
      simp [startRecording, setState, hnr, hnp, hns]

/-- A concrete idle service used by the witnesses. -/
def m_idle : VRService :=
  { display_server := DisplayServer.X11
    process := none
    state := RecordingState.IDLE
    timer_id := none
    current_path := none
    pipewire_node_id := none }

/-- Witness for C4 (amended): from `IDLE`, a start with a successful
launch is accepted and ends in `RECORDING` holding the new handle. -/
theorem startRecording_accepted_iff_not_busy_witness :
    ¬(m_idle.state = RecordingState.RECORDING ∨
      m_idle.state = RecordingState.PREPARING ∨
      m_idle.state = RecordingState.STOPPING) ∧
    ((startRecording m_idle (some ":0") none "/tmp/snipr/a.mp4"
        (LaunchResult.ok 5)).svc.state = RecordingState.RECORDING ∧
      (startRecording m_idle (some ":0") none "/tmp/snipr/a.mp4"
        (LaunchResult.ok 5)).svc.process = some 5) :=
  ⟨by decide,
    (startRecording_accepted_iff_not_busy m_idle (some ":0") none
        "/tmp/snipr/a.mp4" (LaunchResult.ok 5)).2.2 (by decide) 5 rfl⟩

/-- C5: a `stop_recording` in state `RECORDING` whose encoder exits with
code 0 while the output file exists with non-zero size transitions to
`COMPLETED` and fires `on_recording_completed` exactly once, with that
output path, and never `on_recording_failed`. -/
theorem stop_clean_exit_completes (m : VRService) (fs : FS) (pid : Nat)
    (p : String) (sz : Nat) (stderrData : String)
    (hstate : m.state = RecordingState.RECORDING)
    (hproc : m.process = some pid)
    (hpath : m.current_path = some p) (hp : p ≠ "")
    (hfs : List.lookup p fs = some sz) (hsz : 0 < sz) :
    (stopRecording m fs (StopOutcome.exited 0 stderrData)).1.state =
      RecordingState.COMPLETED ∧
    (stopRecording m fs (StopOutcome.exited 0 stderrData)).2.filter
        (fun e => match e with
          | RecEvent.completed _ => true
          | _ => false) = [RecEvent.completed p] ∧
    ∀ msg, RecEvent.failed msg ∉
      (stopRecording m fs (StopOutcome.exited 0 stderrData)).2 := by
  have hszi : (0 : Int) < (sz : Int) := by exact_mod_cast hsz
  simp [stopRecording, setState, hstate, hproc, hpath, strTruthy, hp,
    fsExists, fsSize, hfs, hszi, List.filter]

/-- Witness for C5 on a concrete recording with a 4096-byte output. -/
theorem stop_clean_exit_completes_witness :
    (m_rec.state = RecordingState.RECORDING ∧ m_rec.process = some 7 ∧
      m_rec.current_path = some "/tmp/snipr/Recording_20260101_120000.mp4" ∧
      "/tmp/snipr/Recording_20260101_120000.mp4" ≠ "" ∧
      List.lookup "/tmp/snipr/Recording_20260101_120000.mp4"
        [("/tmp/snipr/Recording_20260101_120000.mp4", 4096)] = some 4096 ∧
      0 < 4096) ∧
    ((stopRecording m_rec [("/tmp/snipr/Recording_20260101_120000.mp4", 4096)]
        (StopOutcome.exited 0 "frame=30")).1.state =
        RecordingState.COMPLETED ∧
      (stopRecording m_rec [("/tmp/snipr/Recording_20260101_120000.mp4", 4096)]
          (StopOutcome.exited 0 "frame=30")).2.filter
          (fun e => match e with
            | RecEvent.completed _ => true
            | _ => false) =
        [RecEvent.completed "/tmp/snipr/Recording_20260101_120000.mp4"] ∧
      ∀ msg, RecEvent.failed msg ∉
        (stopRecording m_rec [("/tmp/snipr/Recording_20260101_120000.mp4", 4096)]
          (StopOutcome.exited 0 "frame=30")).2) :=
  ⟨⟨by decide, by decide, by decide, by decide, by decide, by decide⟩,
    stop_clean_exit_completes m_rec
      [("/tmp/snipr/Recording_20260101_120000.mp4", 4096)] 7
      "/tmp/snipr/Recording_20260101_120000.mp4" 4096 "frame=30"
      (by decide) (by decide) (by decide) (by decide) (by decide) (by decide)⟩

/-- C6: `start_recording_region` forwards the region with both
dimensions forced even — an odd dimension is incremented by one, an even
one is unchanged — and on the x11grab path the encoder command built
from that region carries exactly the evenized `WxH` video-size
argument. -/
theorem region_even_dimensions (m : VRService) (displayVar : Option String)
    (x y : Int) (width height : Nat) (newPath : String)
    (launch : LaunchResult)
    (haccept : ¬(m.state = RecordingState.RECORDING ∨
      m.state = RecordingState.PREPARING ∨
      m.state = RecordingState.STOPPING))
    (hx11 : usesPipewire m.display_server m.pipewire_node_id = false) :
    (start_recording_region m displayVar x y width height newPath
        launch).cmd =
      some (buildFfmpegCommand m.display_server m.pipewire_node_id displayVar
        (some (x, y, width + width % 2, height + height % 2)) newPath) ∧
    (∃ s t, buildFfmpegCommand m.display_server m.pipewire_node_id displayVar
        (some (x, y, width + width % 2, height + height % 2)) newPath =
      s ++ ["-video_size",
        sizeString (width + width % 2) (height + height % 2)] ++ t) ∧
    (width + width % 2) % 2 = 0 ∧ (height + height % 2) % 2 = 0 ∧
    (width % 2 = 1 → width + width % 2 = width + 1) ∧
    (width % 2 = 0 → width + width % 2 = width) ∧
    (height % 2 = 1 → height + height % 2 = height + 1) ∧
    (height % 2 = 0 → height + height % 2 = height) := by
  have hnr : m.state ≠ RecordingState.RECORDING := fun h => haccept (Or.inl h)
  have hnp : m.state ≠ RecordingState.PREPARING :=
    fun h => haccept (Or.inr (Or.inl h))
  have hns : m.state ≠ RecordingState.STOPPING :=
    fun h => haccept (Or.inr (Or.inr h))
  refine ⟨?_, ?_, by omega, by omega, by omega, by omega, by omega, by omega⟩
  · cases launch <;>
      simp [start_recording_region, startRecording, setState, hnr, hnp, hns]
  · refine ⟨["ffmpeg", "-y", "-f", "x11grab", "-framerate", "30",
      "-draw_mouse", "0"],
      ["-i", stripScreenNumber (displayVar.getD ":0") ++ "+" ++
        toString (max 0 x) ++ "," ++ toString (max 0 y),
        "-c:v", "libx264", "-preset", "ultrafast", "-crf", "23",
        "-pix_fmt", "yuv420p", "-r", "30", newPath], ?_⟩
    simp [buildFfmpegCommand, hx11]

/-- Witness for C6 at the claim's example: 101×151 becomes 102×152. -/
theorem region_even_dimensions_witness :
    ¬(m_idle.state = RecordingState.RECORDING ∨
      m_idle.state = RecordingState.PREPARING ∨
      m_idle.state = RecordingState.STOPPING) ∧
    usesPipewire m_idle.display_server m_idle.pipewire_node_id = false ∧
    ((start_recording_region m_idle (some ":0.0") 5 6 101 151
        "/tmp/snipr/r.mp4" (LaunchResult.ok 9)).cmd =
      some (buildFfmpegCommand m_idle.display_server m_idle.pipewire_node_id
        (some ":0.0") (some (5, 6, 102, 152)) "/tmp/snipr/r.mp4") ∧
    (∃ s t, buildFfmpegCommand m_idle.display_server m_idle.pipewire_node_id
        (some ":0.0") (some (5, 6, 102, 152)) "/tmp/snipr/r.mp4" =
      s ++ ["-video_size", sizeString 102 152] ++ t) ∧
    102 % 2 = 0 ∧ 152 % 2 = 0 ∧
    (101 % 2 = 1 → 102 = 101 + 1) ∧ (101 % 2 = 0 → 102 = 101) ∧
    (151 % 2 = 1 → 152 = 151 + 1) ∧ (151 % 2 = 0 → 152 = 151)) :=
  ⟨by decide, by decide,
    region_even_dimensions m_idle (some ":0.0") 5 6 101 151
      "/tmp/snipr/r.mp4" (LaunchResult.ok 9) (by decide) (by decide)⟩

/-- Iterating `_set_state` over a list of requested states: the only way
any code path of the service mutates `_state`. -/
def runSetStates (m : VRService) :
    List RecordingState → VRService × List RecEvent
  | [] => (m, [])
  | s :: rest =>
      ((runSetStates (setState m s).1 rest).1,
        (setState m s).2 ++ (runSetStates (setState m s).1 rest).2)

/-- The values carried by the `on_state_changed` invocations of an event
trace, in order. -/
def stateChanges (evs : List RecEvent) : List RecordingState :=
  evs.filterMap fun e =>
    match e with
    | RecEvent.stateChanged s => some s
    | _ => none

/-- Any run of `_set_state` calls emits pairwise-distinct consecutive
state notifications, and none equal to the state current at the start of
the run before the first emission. -/
theorem runSetStates_chain (l : List RecordingState) : ∀ m : VRService,
    List.Chain' (fun a b => a ≠ b) (stateChanges (runSetStates m l).2) ∧
    ∀ x ∈ (stateChanges (runSetStates m l).2).head?, x ≠ m.state := by
  induction l with
  | nil => intro m; simp [runSetStates, stateChanges]
  | cons s rest ih =>
      intro m
      by_cases hs : m.state = s
      · have hset : setState m s = (m, []) := by simp [setState, hs]
        simp only [runSetStates, hset, List.nil_append]
        exact ih m
      · have hset : setState m s =
            ({ m with state := s }, [RecEvent.stateChanged s]) := by
          simp [setState, hs]
        obtain ⟨ih1, ih2⟩ := ih { m with state := s }
        have hsc : stateChanges (runSetStates m (s :: rest)).2 =
            s :: stateChanges (runSetStates { m with state := s } rest).2 := by
          simp [runSetStates, hset, stateChanges]
        rw [hsc]
        constructor
        · rw [List.chain'_cons']
          refine ⟨fun y hy => ?_, ih1⟩
          have hne := ih2 y hy
          simp only at hne
          exact fun h => hne h.symm
        · intro x hx
          simp only [List.head?_cons, Option.mem_def, Option.some.injEq] at hx
          subst hx
          exact fun h => hs h.symm

/-- C10: `on_state_changed` fires only on an actual change — `_set_state`
with the current state is a no-op, every run of `_set_state` calls emits
no two consecutive equal state values, and `cancel_recording` while
already `IDLE` emits no state notification at all. -/
theorem on_state_changed_only_on_change :
    (∀ (m : VRService) (s : RecordingState), m.state = s →
      setState m s = (m, [])) ∧
    (∀ (m : VRService) (l : List RecordingState),
      List.Chain' (fun a b => a ≠ b) (stateChanges (runSetStates m l).2)) ∧
    (∀ (m : VRService) (fs : FS), m.state = RecordingState.IDLE →
      stateChanges (cancelRecording m fs).2.2 = []) := by
  refine ⟨fun m s hs => by simp [setState, hs],
    fun m l => (runSetStates_chain l m).1,
    fun m fs hidle => ?_⟩
  simp [cancelRecording, setState, hidle, stateChanges]

/-- Witness for C10: a concrete no-op set, a concrete run, and a cancel
from `IDLE` with no state notification. -/
theorem on_state_changed_only_on_change_witness :
    (m_idle.state = RecordingState.IDLE ∧
      setState m_idle RecordingState.IDLE = (m_idle, [])) ∧
    List.Chain' (fun a b => a ≠ b)
      (stateChanges (runSetStates m_idle
        [RecordingState.PREPARING, RecordingState.RECORDING]).2) ∧
    (m_idle.state = RecordingState.IDLE ∧
      stateChanges (cancelRecording m_idle []).2.2 = []) :=
  ⟨⟨by decide,
      on_state_changed_only_on_change.1 m_idle RecordingState.IDLE (by decide)⟩,
    on_state_changed_only_on_change.2.1 m_idle
      [RecordingState.PREPARING, RecordingState.RECORDING],
    by decide,
    on_state_changed_only_on_change.2.2 m_idle [] (by decide)⟩

end Snipr
